import Mathlib

/-
Verification development for the gdal raster wrapper
(src/gdal_common/raster/dataset.rs and src/gdal_common/metadata.rs).

The Rust code is a thin safe wrapper over a native C library.  We embed it
shallowly: the native library is modelled as an explicit environment value
(what each native entry point would answer), and each Rust method becomes a
Lean function of that environment, translated line by line from the source.
Native entry points whose wrapper code is not part of this repository slice
(the RasterBand windowed I/O, the `utils` error helpers) are modelled from
the specification and are marked as such in their doc comments.
-/

set_option autoImplicit false

namespace Gdal

/-! ## Errors

The repository's `errors.rs` is not part of the slice; the error type is
modelled from the spec's error-kind list (§7) together with how `dataset.rs`
and `metadata.rs` construct errors: `_last_null_pointer_err(method)` for a
null native pointer, `_last_cpl_err` for a failing `CPLErr` return, and the
`From<NulError>` conversion invoked by `?` on `CString::new`. -/

/-- Error type. `nullPointerErr method msg` models the error built by
`_last_null_pointer_err(method)` (the spec calls the open flavour
`OpenError` and the band flavour `BandNotFound`); `cplErr` models
`_last_cpl_err`; `ffiNulError` models the `NulError` produced by
`CString::new` on an interior NUL byte. -/
inductive GdalError where
  | nullPointerErr (method : String) (msg : String)
  | cplErr (msg : String)
  | ffiNulError
  deriving DecidableEq, Repr

/-- `Result<a>` from `errors.rs`. -/
abbrev GResult (a : Type) : Type := Except GdalError a

/-- The process-wide native diagnostics channel (spec §6): the "last error"
message the native layer may hold. -/
structure Diag where
  lastErrMsg : Option String
  deriving DecidableEq, Repr

/-- Modelled from the spec: `_last_null_pointer_err(method)` in `utils.rs`
(not under the slice) builds a typed error for method `method` carrying the
last native diagnostic message when one is available (§6, §7). -/
def lastNullPointerErr (method : String) (d : Diag) : GdalError :=
  .nullPointerErr method (d.lastErrMsg.getD "")

/-- Modelled from the spec: `_last_cpl_err` in `utils.rs` (not under the
slice) builds a typed error carrying the last native diagnostic message
when one is available (§6, §7). -/
def lastCplErr (d : Diag) : GdalError :=
  .cplErr (d.lastErrMsg.getD "")

/-- `CPLErr` status returned by native calls; `CE_None` means success. -/
inductive CPLErr where
  | CE_None
  | CE_Failure
  deriving DecidableEq, Repr

/-- Whether a string contains an interior NUL byte. -/
def hasInteriorNul (s : String) : Bool :=
  s.toList.contains (Char.ofNat 0)

/-- `CString::new(s)`: fails (returns `none`) exactly when `s` contains an
interior NUL byte; otherwise passes the string through. -/
def cstringNew (s : String) : Option String :=
  if hasInteriorNul s then none else some s

/-- The `as c_int` cast applied to a 64-bit `isize`: two's-complement
truncation to 32 bits, i.e. the representative of `i` modulo `2 ^ 32` lying
in `[-2 ^ 31, 2 ^ 31)`. -/
def toCInt (i : Int) : Int :=
  (i + 2 ^ 31).emod (2 ^ 32) - 2 ^ 31

/-! ## Buffer (dataset.rs lines 262-273) -/

/-- `Buffer<T>`: a 2-D size descriptor paired with row-major sample data. -/
structure Buffer (α : Type) where
  size : Nat × Nat
  data : List α
  deriving DecidableEq, Repr

/-- `Buffer::new(size, data)` from the source: constructs the buffer from
the given fields, with no check relating `data.len()` to `size`. -/
def Buffer.new {α : Type} (size : Nat × Nat) (data : List α) : Buffer α :=
  { size := size, data := data }

/-! ## RasterBand content model

`rasterband.rs` is not part of the slice; only its callers are.  A band is
modelled as its pixel grid, and its windowed read/write operations are
modelled from the spec (§4.3). -/

/-- A raster band's pixel content: dimensions plus a row-major pixel
function (`px x y` is the sample at column `x`, row `y`, meaningful for
`x < w`, `y < h`). -/
structure Grid (α : Type) where
  w : Nat
  h : Nat
  px : Nat → Nat → α

/-- Whether a requested window (offset `window`, extent `window_size`) lies
inside the band: nonnegative offsets and the extent within the band
dimensions.  The native layer reports a read/write error outside this. -/
def Grid.windowOk {α : Type} (g : Grid α) (window : Int × Int)
    (window_size : Nat × Nat) : Prop :=
  0 ≤ window.1 ∧ 0 ≤ window.2 ∧
    window.1.toNat + window_size.1 ≤ g.w ∧
    window.2.toNat + window_size.2 ≤ g.h

instance {α : Type} (g : Grid α) (window : Int × Int)
    (window_size : Nat × Nat) : Decidable (g.windowOk window window_size) :=
  inferInstanceAs (Decidable (_ ∧ _ ∧ _ ∧ _))

/-- Modelled from the spec: `RasterBand::read_as(window, window_size, size)`
(§4.3, `rasterband.rs` not under the slice).  Reads the source window and
produces a fresh buffer of exactly `size` samples in row-major order; when
`window_size != size` the backend resamples (policy delegated, modelled as
nearest-neighbour per §9); fails with a `NativeReadError` when the native
transfer call reports failure (modelled: window outside the band). -/
def Grid.read_as {α : Type} (g : Grid α) (d : Diag) (window : Int × Int)
    (window_size : Nat × Nat) (size : Nat × Nat) : GResult (Buffer α) :=
  if g.windowOk window window_size then
    .ok ⟨size, (List.range (size.1 * size.2)).map fun i =>
      g.px (window.1.toNat + (i % size.1) * window_size.1 / size.1)
           (window.2.toNat + (i / size.1) * window_size.2 / size.2)⟩
  else
    .error (lastCplErr d)

/-- Modelled from the spec: `RasterBand::read_band_as()` (§4.3 `read_full`,
`rasterband.rs` not under the slice).  Reads the entire band at native
resolution into a fresh buffer. -/
def Grid.read_band_as {α : Type} (g : Grid α) (_d : Diag) :
    GResult (Buffer α) :=
  .ok ⟨(g.w, g.h), (List.range (g.w * g.h)).map fun i =>
    g.px (i % g.w) (i / g.w)⟩

/-- The pixel function after a window write: inside the window the sample
comes from the buffer (nearest-neighbour resampled from the buffer's
declared size to the window size), outside it the old sample stands. -/
def Grid.writePx {α : Type} [Inhabited α] (g : Grid α) (window : Int × Int)
    (window_size : Nat × Nat) (buffer : Buffer α) (x y : Nat) : α :=
  if window.1.toNat ≤ x ∧ x < window.1.toNat + window_size.1 ∧
      window.2.toNat ≤ y ∧ y < window.2.toNat + window_size.2 then
    buffer.data.getD
      ((y - window.2.toNat) * buffer.size.2 / window_size.2 * buffer.size.1 +
        (x - window.1.toNat) * buffer.size.1 / window_size.1)
      default
  else g.px x y

/-- Modelled from the spec: `RasterBand::write(window, window_size, buffer)`
(§4.3, `rasterband.rs` not under the slice).  Writes the buffer's samples
into the window, resampling from the buffer's declared size to
`window_size` when they differ (nearest-neighbour per §9); pixels outside
the window are untouched; fails with a `NativeWriteError` when the native
transfer call reports failure (modelled: window outside the band). -/
def Grid.write {α : Type} [Inhabited α] (g : Grid α) (d : Diag)
    (window : Int × Int) (window_size : Nat × Nat) (buffer : Buffer α) :
    GResult (Grid α) :=
  if g.windowOk window window_size then
    .ok { g with px := g.writePx window window_size buffer }
  else
    .error (lastCplErr d)

/-! ## Dataset (dataset.rs) -/

/-- The native state behind one open dataset handle: its bands (each a
pixel grid) and its geo-transform coefficients, when defined.  The
coefficients are `c_double`s that this layer moves around uninterpreted;
they are modelled as integers so that equality is decidable. -/
structure DatasetState (α : Type) where
  bands : List (Grid α)
  geo : Option (Fin 6 → Int)
  geoWritable : Bool

/-- `GeoTransform = [c_double; 6]` (dataset.rs line 18). -/
abbrev GeoTransform : Type := Fin 6 → Int

/-- Modelled from the spec: the native `GDALGetRasterBand(dataset, n)`
returns a null handle exactly when `n` is out of range under the native
1-based convention (§4.4), and the band handle for `1 <= n <= band_count`
otherwise. -/
def GDALGetRasterBand {α : Type} (ds : DatasetState α) (n : Int) :
    Option (Grid α) :=
  if 1 ≤ n ∧ n ≤ (ds.bands.length : Int) then ds.bands.get? (n - 1).toNat
  else none

/-- `DatasetExt::rasterband(band_index)` (dataset.rs lines 59-67): casts the
index with `as c_int`, performs the native lookup, and converts a null
handle into the `_last_null_pointer_err("GDALGetRasterBand")` error. -/
def rasterband {α : Type} (ds : DatasetState α) (d : Diag)
    (band_index : Int) : GResult (Grid α) :=
  match GDALGetRasterBand ds (toCInt band_index) with
  | none => .error (lastNullPointerErr "GDALGetRasterBand" d)
  | some b => .ok b

/-- `DatasetExt::count()` (dataset.rs lines 92-94). -/
def count {α : Type} (ds : DatasetState α) : Int :=
  (ds.bands.length : Int)

/-! ## Dataset open and lifecycle (dataset.rs lines 32-38 and 44-53) -/

/-- Native calls relevant to the dataset lifecycle, recorded as trace
events. -/
inductive NativeEvent where
  | evGDALOpen (path : String)
  | evGDALClose (handle : Nat)
  deriving DecidableEq, Repr

/-- The native environment consulted by `open`: what `GDALOpen` answers for
each C path string (`none` models a null handle) and the diagnostics
channel.  Handles are modelled as naturals. -/
structure OpenEnv where
  gdalOpen : String → Option Nat
  diag : Diag

/-- `DatasetExt::open(path)` (dataset.rs lines 44-53): converts the path to
a `CString` (the `?` propagates a `NulError` on an interior NUL byte),
calls `GDALOpen`, turns a null handle into
`_last_null_pointer_err("GDALOpen")`, and otherwise wraps the handle.
(`_register_drivers()` is idempotent process initialization with no effect
on the result and is not modelled.)  Besides the result, the list of
native calls performed is returned as a trace. -/
def openDataset (path : String) (env : OpenEnv) :
    GResult Nat × List NativeEvent :=
  match cstringNew path with
  | none => (.error .ffiNulError, [])
  | some c_filename =>
    match env.gdalOpen c_filename with
    | none => (.error (lastNullPointerErr "GDALOpen" env.diag),
        [.evGDALOpen c_filename])
    | some c_dataset => (.ok c_dataset, [.evGDALOpen c_filename])

/-- `impl Drop for Dataset` (dataset.rs lines 32-38): dropping the value
calls `GDALClose` on the wrapped handle, once. -/
def dropDataset (c_dataset : Nat) : List NativeEvent :=
  [.evGDALClose c_dataset]

/-- One full lifetime of a `Dataset` value: `open`, then — exactly when a
`Dataset` value was produced and goes out of scope — the `Drop` glue.
Rust runs `Drop` once per produced value at end of scope; on the error
paths no `Dataset` value exists and no drop runs. -/
def lifecycle (path : String) (env : OpenEnv) : List NativeEvent :=
  match openDataset path env with
  | (.ok h, tr) => tr ++ dropDataset h
  | (.error _, tr) => tr

/-- The close events contained in a trace. -/
def closeEvents (tr : List NativeEvent) : List NativeEvent :=
  tr.filter fun e => match e with
    | .evGDALClose _ => true
    | _ => false

/-! ## Projection (dataset.rs lines 101-105) -/

/-- The native environment consulted by `set_projection`: the `CPLErr`
status `GDALSetProjection` reports for each projection string. -/
structure ProjEnv where
  gdalSetProjection : String → CPLErr
  diag : Diag

/-- `DatasetExt::set_projection(projection)` (dataset.rs lines 101-105):
converts the string to a `CString` (the `?` propagates a `NulError`),
performs the native call, and returns `Ok(())` — the `CPLErr` status the
native call reports is discarded, not checked. -/
def set_projection (projection : String) (env : ProjEnv) : GResult Unit :=
  match cstringNew projection with
  | none => .error .ffiNulError
  | some c_projection =>
    let _rv := env.gdalSetProjection c_projection
    .ok ()

/-! ## Geo-transform (dataset.rs lines 120-149) -/

/-- Modelled from the spec: the native `GDALSetGeoTransform` stores the six
coefficients when the resource supports geo-transforms and reports
`CE_Failure`, leaving the state unchanged, when the backend rejects the
set (§3, §4.4). -/
def GDALSetGeoTransform {α : Type} (ds : DatasetState α)
    (t : GeoTransform) : CPLErr × DatasetState α :=
  if ds.geoWritable then (.CE_None, { ds with geo := some t })
  else (.CE_Failure, ds)

/-- Modelled from the spec: the native `GDALGetGeoTransform` fills the
caller's array with the stored coefficients when the dataset has a
geo-transform, and reports `CE_Failure`, leaving the caller's
default-initialized array, when none is defined (§4.4). -/
def GDALGetGeoTransform {α : Type} (ds : DatasetState α) :
    CPLErr × GeoTransform :=
  match ds.geo with
  | some t => (.CE_None, t)
  | none => (.CE_Failure, fun _ => 0)

/-- `DatasetExt::set_geo_transform(transformation)` (dataset.rs lines
120-129): the `assert_eq!(transformation.len(), 6)` holds by the array
type; the native call's `CPLErr` is checked and a failure becomes
`_last_cpl_err`.  State-passing: the successful result carries the updated
native state. -/
def set_geo_transform {α : Type} (ds : DatasetState α) (d : Diag)
    (transformation : GeoTransform) : GResult (DatasetState α) :=
  match GDALSetGeoTransform ds transformation with
  | (rv, ds') => if rv ≠ CPLErr.CE_None then .error (lastCplErr d) else .ok ds'

/-- `DatasetExt::geo_transform()` (dataset.rs lines 139-149): starts from
`GeoTransform::default()`, lets the native call fill it, checks the
`CPLErr` (the "dataset has no geo-transform" case) and returns the filled
array on success. -/
def geo_transform {α : Type} (ds : DatasetState α) (d : Diag) :
    GResult GeoTransform :=
  match GDALGetGeoTransform ds with
  | (rv, transformation) =>
    if rv ≠ CPLErr.CE_None then .error (lastCplErr d) else .ok transformation

/-! ## Convenience raster I/O (dataset.rs lines 180-246) -/

/-- `DatasetExt::read_full_raster_as::<T>(band_index)` (dataset.rs lines
193-195): `self.rasterband(band_index)?.read_band_as()`. -/
def read_full_raster_as {α : Type} (ds : DatasetState α) (d : Diag)
    (band_index : Int) : GResult (Buffer α) :=
  (rasterband ds d band_index).bind fun band => band.read_band_as d

/-- `DatasetExt::read_raster_as::<T>(band_index, window, window_size,
size)` (dataset.rs lines 203-212):
`self.rasterband(band_index)?.read_as(window, window_size, size)`. -/
def read_raster_as {α : Type} (ds : DatasetState α) (d : Diag)
    (band_index : Int) (window : Int × Int) (window_size : Nat × Nat)
    (size : Nat × Nat) : GResult (Buffer α) :=
  (rasterband ds d band_index).bind fun band =>
    band.read_as d window window_size size

/-- `ByteBuffer = Buffer<u8>` (dataset.rs line 273); `u8` samples are
modelled as naturals, moved around uninterpreted. -/
abbrev ByteBuffer : Type := Buffer Nat

/-- `DatasetExt::read_raster(band_index, window, window_size, size)`
(dataset.rs lines 180-188): `self.read_raster_as::<u8>(...)`. -/
def read_raster (ds : DatasetState Nat) (d : Diag) (band_index : Int)
    (window : Int × Int) (window_size : Nat × Nat) (size : Nat × Nat) :
    GResult ByteBuffer :=
  read_raster_as ds d band_index window window_size size

/-- `DatasetExt::write_raster::<T>(band_index, window, window_size,
buffer)` (dataset.rs lines 237-246):
`self.rasterband(band_index)?.write(window, window_size, buffer)`.
State-passing: in Rust the write mutates, through the band handle, the
band the native lookup resolved (slot `toCInt band_index - 1`); here the
successful result carries the dataset state with that band replaced. -/
def write_raster {α : Type} [Inhabited α] (ds : DatasetState α) (d : Diag)
    (band_index : Int) (window : Int × Int) (window_size : Nat × Nat)
    (buffer : Buffer α) : GResult (DatasetState α) :=
  (rasterband ds d band_index).bind fun band =>
    (band.write d window window_size buffer).map fun g =>
      { ds with bands := ds.bands.set (toCInt band_index - 1).toNat g }

/-! ## Spec-side composition of the convenience methods (spec §4.4)

For the refinement claim these definitions follow the spec's words: "look
up the band with `rasterband` and invoke the corresponding RasterBand
operation with the same arguments, adding no behavior beyond band
resolution" — in particular, when the lookup fails its error is passed
through unmodified. -/

/-- Spec-side `read_full_raster_as`: band lookup, then the band's full
read, errors passed through. -/
def read_full_raster_asSpec {α : Type} (ds : DatasetState α) (d : Diag)
    (band_index : Int) : GResult (Buffer α) :=
  match rasterband ds d band_index with
  | .error e => .error e
  | .ok band => band.read_band_as d

/-- Spec-side `read_raster_as`: band lookup, then the band's windowed read
with the same arguments, errors passed through. -/
def read_raster_asSpec {α : Type} (ds : DatasetState α) (d : Diag)
    (band_index : Int) (window : Int × Int) (window_size : Nat × Nat)
    (size : Nat × Nat) : GResult (Buffer α) :=
  match rasterband ds d band_index with
  | .error e => .error e
  | .ok band => band.read_as d window window_size size

/-- Spec-side `read_raster`: band lookup, then the band's windowed read at
the byte sample type, errors passed through. -/
def read_rasterSpec (ds : DatasetState Nat) (d : Diag) (band_index : Int)
    (window : Int × Int) (window_size : Nat × Nat) (size : Nat × Nat) :
    GResult ByteBuffer :=
  match rasterband ds d band_index with
  | .error e => .error e
  | .ok band => band.read_as d window window_size size

/-- Spec-side `write_raster`: band lookup, then the band's windowed write
with the same arguments and the same state commit, errors passed
through. -/
def write_rasterSpec {α : Type} [Inhabited α] (ds : DatasetState α)
    (d : Diag) (band_index : Int) (window : Int × Int)
    (window_size : Nat × Nat) (buffer : Buffer α) :
    GResult (DatasetState α) :=
  match rasterband ds d band_index with
  | .error e => .error e
  | .ok band =>
    match band.write d window window_size buffer with
    | .error e => .error e
    | .ok g =>
      .ok { ds with bands := ds.bands.set (toCInt band_index - 1).toNat g }

/-! ## Metadata (metadata.rs lines 16-32) -/

/-- The native environment consulted by `metadata_item`: what
`GDALGetMetadataItem` answers for each key/domain pair (`none` models a
null pointer). -/
structure MetaEnv where
  gdalGetMetadataItem : String → String → Option String

/-- `Metadata::metadata_item(key, domain)` (metadata.rs lines 16-32): the
key and then the domain are converted to `CString`s inside `if let Ok`
chains; when both succeed the native lookup runs and a non-null result is
returned as `Some`; every other path falls through to `None`.  The second
component records whether the native call was made. -/
def metadata_item (env : MetaEnv) (key domain : String) :
    Option String × Bool :=
  match cstringNew key with
  | some c_key =>
    match cstringNew domain with
    | some c_domain =>
      match env.gdalGetMetadataItem c_key c_domain with
      | some res => (some res, true)
      | none => (none, true)
    | none => (none, false)
  | none => (none, false)

/-! ## Sample values used by concrete witnesses -/

/-- A 2-by-2 sample band with values 10, 20, 30, 40 in row-major order. -/
def sampleGrid : Grid Nat :=
  ⟨2, 2, fun x y => 10 * (1 + x + 2 * y)⟩

/-- A diagnostics channel holding a message. -/
def sampleDiag : Diag := ⟨some "native message"⟩

/-- A one-band sample dataset with no geo-transform defined but writable
geo-transform support. -/
def sampleDS : DatasetState Nat := ⟨[sampleGrid], none, true⟩

/-- The buffer produced by reading `sampleGrid` in full. -/
def sampleBuf : Buffer Nat := ⟨(2, 2), [10, 20, 30, 40]⟩

/-- A path string with an interior NUL byte. -/
def nulPath : String := "a\x00b"

/-- An open environment whose native open never returns a null handle. -/
def envNoNull : OpenEnv := ⟨fun _ => some 1, ⟨none⟩⟩

/-- A projection environment whose native set-projection call reports
failure. -/
def envProjFail : ProjEnv := ⟨fun _ => .CE_Failure, ⟨some "proj error"⟩⟩

/-- A sample geo-transform with the conventional negative pixel height. -/
def sampleGeo : GeoTransform := ![0, 10, 0, 100, 0, -10]

/-- `sampleDS` after its geo-transform has been set to `sampleGeo`. -/
def dsAfterGeo : DatasetState Nat := { sampleDS with geo := some sampleGeo }

/-! ## Pixel-content comparison (for the read/write round-trip) -/

/-- Two bands have identical pixel content: equal dimensions and equal
samples over the whole band. -/
def Grid.contentEq {α : Type} (g g' : Grid α) : Prop :=
  g'.w = g.w ∧ g'.h = g.h ∧
    ∀ x y, x < g.w → y < g.h → g'.px x y = g.px x y

/-- Two dataset states have identical pixel content: the same number of
bands, each with identical content. -/
def DatasetState.contentEq {α : Type} (ds ds' : DatasetState α) : Prop :=
  ds'.bands.length = ds.bands.length ∧
    ∀ (j : Nat) (hj : j < ds.bands.length) (hj' : j < ds'.bands.length),
      Grid.contentEq (ds.bands.get ⟨j, hj⟩) (ds'.bands.get ⟨j, hj'⟩)

/-- A write result leaves the dataset's pixel content intact: the write
succeeded and the resulting state has identical content. -/
def writePreserves {α : Type} (ds : DatasetState α)
    (r : GResult (DatasetState α)) : Prop :=
  match r with
  | .ok ds' => DatasetState.contentEq ds ds'
  | .error _ => False

/-! ## Theorems -/

/-- C3 (counterexample): the null-handle case is not the only failure mode
of `open` — with a native environment that never returns a null handle,
opening a path with an interior NUL byte still fails (the `CString`
conversion error), so "error iff the native open call returns a null
handle" is false. -/
theorem c3_counterexample :
    envNoNull.gdalOpen nulPath = some 1 ∧
      (openDataset nulPath envNoNull).1 = .error .ffiNulError :=
  ⟨rfl, rfl⟩

/-- C3 (amended): `open(path)` fails exactly when the path contains an
interior NUL byte (the `CString` conversion error, made before any native
call) or the native open call returns a null handle; in the null-handle
case the error carries the last native diagnostic message when one is
available.  Opening a non-existent path (the environment answers with a
null handle) therefore yields that typed error; the function is total, so
no panic or undefined value occurs. -/
theorem c3_amended (path : String) (env : OpenEnv) :
    (openDataset path env).1 =
      (if hasInteriorNul path then .error .ffiNulError
       else
        match env.gdalOpen path with
        | none =>
          .error (.nullPointerErr "GDALOpen" (env.diag.lastErrMsg.getD ""))
        | some h => .ok h) := by
  unfold openDataset cstringNew
  by_cases hn : hasInteriorNul path
  · simp [hn]
  · simp only [hn, Bool.false_eq_true, if_false, if_neg]
    cases env.gdalOpen path <;> rfl

/-- C4 (code bug): `set_projection` discards the `CPLErr` status of the
native `GDALSetProjection` call — in an environment where the native call
reports `CE_Failure`, it still returns `Ok(())`, contradicting the spec's
"set fails with `NativeWriteError` on backend failure". -/
theorem c4_code_bug :
    envProjFail.gdalSetProjection "not a wkt" = CPLErr.CE_Failure ∧
      set_projection "not a wkt" envProjFail = .ok () :=
  ⟨rfl, rfl⟩

/-- C9: `metadata_item(key, domain)` is total — it never returns an error
(its result type has no error case) — and equals: `None` without making
the native call when the key or the domain contains an interior NUL byte,
and otherwise exactly the native lookup's answer (in particular `None`
whenever the native lookup yields a null pointer). -/
theorem c9_metadata_item_total (env : MetaEnv) (key domain : String) :
    metadata_item env key domain =
      (if hasInteriorNul key || hasInteriorNul domain then (none, false)
       else (env.gdalGetMetadataItem key domain, true)) := by
  unfold metadata_item cstringNew
  by_cases hk : hasInteriorNul key
  · simp [hk]
  · by_cases hd : hasInteriorNul domain
    · simp [hk, hd]
    · simp only [hk, hd, Bool.false_eq_true, if_false, if_neg,
        Bool.or_self]
      cases env.gdalGetMetadataItem key domain <;> rfl

/-- C10: `rasterband` truncates its `isize` index to a 32-bit `c_int`
before the native lookup, so two indices congruent modulo `2 ^ 32` produce
the identical native argument and the same outcome. -/
theorem c10_truncation {α : Type} (ds : DatasetState α) (d : Diag)
    (i j : Int) (h : i.emod (2 ^ 32) = j.emod (2 ^ 32)) :
    toCInt i = toCInt j ∧ rasterband ds d i = rasterband ds d j := by
  have ht : toCInt i = toCInt j := by
    have hmod : (i + 2 ^ 31).emod (2 ^ 32) = (j + 2 ^ 31).emod (2 ^ 32) :=
      Int.ModEq.add_right _ h
    unfold toCInt
    rw [hmod]
  exact ⟨ht, by unfold rasterband; rw [ht]⟩

/-- C10 witness: indices 1 and `2 ^ 32 + 1` are congruent modulo `2 ^ 32`,
so `rasterband` treats them identically on the sample dataset. -/
theorem c10_truncation_witness :
    (1 : Int).emod (2 ^ 32) = (2 ^ 32 + 1 : Int).emod (2 ^ 32) ∧
      (toCInt 1 = toCInt (2 ^ 32 + 1) ∧
        rasterband sampleDS sampleDiag 1 =
          rasterband sampleDS sampleDiag (2 ^ 32 + 1)) :=
  ⟨by decide, c10_truncation sampleDS sampleDiag 1 (2 ^ 32 + 1) (by decide)⟩

/-- C6: a successful `set_geo_transform(&t)` followed by `geo_transform()`
returns exactly the six coefficients `t`, whatever their values (in
particular a negative `pixel_height`): the wrapper moves the array through
uninterpreted in both directions. -/
theorem c6_geo_roundtrip {α : Type} (ds ds' : DatasetState α) (d d' : Diag)
    (t : GeoTransform) (hset : set_geo_transform ds d t = .ok ds') :
    geo_transform ds' d' = .ok t := by
  unfold set_geo_transform GDALSetGeoTransform at hset
  by_cases hw : ds.geoWritable
  · simp only [hw, if_true] at hset
    simp only [ne_eq, not_true_eq_false, if_false, reduceIte,
      Except.ok.injEq] at hset
    subst hset
    rfl
  · simp only [hw, Bool.false_eq_true, if_false] at hset
    simp at hset

/-- C6 witness: setting `sampleGeo` (pixel height `-10`) on the sample
dataset and reading the geo-transform back returns exactly `sampleGeo`. -/
theorem c6_geo_roundtrip_witness :
    sampleGeo 5 = -10 ∧ geo_transform dsAfterGeo sampleDiag = .ok sampleGeo :=
  ⟨rfl,
    c6_geo_roundtrip sampleDS dsAfterGeo sampleDiag sampleDiag sampleGeo rfl⟩

/-- C8: over one full lifetime of a `Dataset` value — `open` followed, when
a value was produced, by its end-of-scope `Drop` — the native close is
executed exactly once, on exactly the handle `open` acquired, and never on
the error paths (which acquire no handle): no double-close and no leak. -/
theorem c8_lifecycle_close_once (path : String) (env : OpenEnv) :
    closeEvents (lifecycle path env) =
      (match (openDataset path env).1 with
       | .ok h => [.evGDALClose h]
       | .error _ => []) := by
  unfold lifecycle closeEvents openDataset dropDataset
  cases hc : cstringNew path with
  | none => rfl
  | some c =>
    cases ho : env.gdalOpen c with
    | none => simp [ho, List.filter]
    | some h => simp [ho, List.filter]

/-- The `as c_int` truncation is the identity on values already
representable in 32 bits. -/
theorem toCInt_eq_self (i : Int) (hlo : -(2 ^ 31) ≤ i) (hhi : i < 2 ^ 31) :
    toCInt i = i := by
  show (i + 2 ^ 31) % 2 ^ 32 - 2 ^ 31 = i
  omega

/-- C5 (counterexample): `rasterband` does not return `BandNotFound` for
every index greater than the band count — on the one-band sample dataset
the index `2 ^ 32 + 1` exceeds the count yet succeeds, because the `as
c_int` truncation maps it to 1 before the native lookup. -/
theorem c5_counterexample :
    count sampleDS < 2 ^ 32 + 1 ∧
      (rasterband sampleDS sampleDiag (2 ^ 32 + 1)).isOk = true := by
  exact ⟨by decide, rfl⟩

/-- C5 (amended): for indices representable as a 32-bit `c_int`,
`rasterband(index)` succeeds for every index in
`1..=band_count` and returns the `BandNotFound` error
(`_last_null_pointer_err("GDALGetRasterBand")`) exactly on the remaining
indices — in particular for index 0 and for indices above the band
count. -/
theorem c5_amended {α : Type} (ds : DatasetState α) (d : Diag) (i : Int)
    (hlo : -(2 ^ 31) ≤ i) (hhi : i < 2 ^ 31) :
    (1 ≤ i ∧ i ≤ count ds → (rasterband ds d i).isOk = true) ∧
      (¬(1 ≤ i ∧ i ≤ count ds) →
        rasterband ds d i =
          .error (lastNullPointerErr "GDALGetRasterBand" d)) := by
  have ht : toCInt i = i := toCInt_eq_self i hlo hhi
  unfold rasterband GDALGetRasterBand count at *
  rw [ht]
  constructor
  · rintro ⟨h1, h2⟩
    have hn : (i - 1).toNat < ds.bands.length := by omega
    rw [if_pos ⟨h1, h2⟩, List.get?_eq_get hn]
    rfl
  · intro hn
    rw [if_neg hn]

/-- C5 witness: on the one-band sample dataset, index 1 succeeds while
index 0 and index 2 yield the band-not-found error. -/
theorem c5_amended_witness :
    (rasterband sampleDS sampleDiag 1).isOk = true ∧
      rasterband sampleDS sampleDiag 0 =
        .error (lastNullPointerErr "GDALGetRasterBand" sampleDiag) ∧
      rasterband sampleDS sampleDiag 2 =
        .error (lastNullPointerErr "GDALGetRasterBand" sampleDiag) :=
  ⟨(c5_amended sampleDS sampleDiag 1 (by decide) (by decide)).1 (by decide),
    (c5_amended sampleDS sampleDiag 0 (by decide) (by decide)).2 (by decide),
    (c5_amended sampleDS sampleDiag 2 (by decide) (by decide)).2 (by decide)⟩

/-- A buffer produced by a band's windowed read has exactly
`size.0 * size.1` samples. -/
theorem read_as_ok_length {α : Type} (g : Grid α) (d : Diag)
    (window : Int × Int) (window_size size : Nat × Nat) (buf : Buffer α)
    (h : g.read_as d window window_size size = .ok buf) :
    buf.data.length = buf.size.1 * buf.size.2 := by
  unfold Grid.read_as at h
  split at h
  · cases h
    simp
  · exact Except.noConfusion h

/-- A buffer produced by a band's full read has exactly
`size.0 * size.1` samples. -/
theorem read_band_as_ok_length {α : Type} (g : Grid α) (d : Diag)
    (buf : Buffer α) (h : g.read_band_as d = .ok buf) :
    buf.data.length = buf.size.1 * buf.size.2 := by
  unfold Grid.read_band_as at h
  cases h
  simp

/-- C1 (counterexample): `Buffer::new` does not reject or exclude
mismatched inputs — it happily constructs a buffer whose data length (1)
differs from `size.0 * size.1` (4). -/
theorem c1_counterexample :
    (Buffer.new (2, 2) ([7] : List Nat)).data.length ≠
      (Buffer.new (2, 2) ([7] : List Nat)).size.1 *
        (Buffer.new (2, 2) ([7] : List Nat)).size.2 := by
  decide

/-- C1 (amended): `Buffer::new(size, data)` stores its arguments unchecked,
so the constructed buffer satisfies `data.len() == size.0 * size.1` exactly
when the caller's arguments do; every buffer returned by a read operation
(`read_raster_as`, `read_raster`, `read_full_raster_as`) satisfies
`data.len() == size.0 * size.1`. -/
theorem c1_amended :
    (∀ (sz : Nat × Nat) (data : List Nat),
      ((Buffer.new sz data).data.length =
          (Buffer.new sz data).size.1 * (Buffer.new sz data).size.2 ↔
        data.length = sz.1 * sz.2)) ∧
    (∀ (α : Type) (ds : DatasetState α) (d : Diag) (i : Int)
      (w : Int × Int) (ws sz : Nat × Nat) (buf : Buffer α),
      read_raster_as ds d i w ws sz = .ok buf →
        buf.data.length = buf.size.1 * buf.size.2) ∧
    (∀ (ds : DatasetState Nat) (d : Diag) (i : Int) (w : Int × Int)
      (ws sz : Nat × Nat) (buf : ByteBuffer),
      read_raster ds d i w ws sz = .ok buf →
        buf.data.length = buf.size.1 * buf.size.2) ∧
    (∀ (α : Type) (ds : DatasetState α) (d : Diag) (i : Int)
      (buf : Buffer α),
      read_full_raster_as ds d i = .ok buf →
        buf.data.length = buf.size.1 * buf.size.2) := by
  have hras : ∀ (α : Type) (ds : DatasetState α) (d : Diag) (i : Int)
      (w : Int × Int) (ws sz : Nat × Nat) (buf : Buffer α),
      read_raster_as ds d i w ws sz = .ok buf →
        buf.data.length = buf.size.1 * buf.size.2 := by
    intro α ds d i w ws sz buf h
    unfold read_raster_as at h
    cases hb : rasterband ds d i with
    | error e => rw [hb] at h; exact Except.noConfusion h
    | ok band =>
      rw [hb] at h
      exact read_as_ok_length band d w ws sz buf h
  refine ⟨fun sz data => Iff.rfl, hras, fun ds => hras Nat ds, ?_⟩
  intro α ds d i buf h
  unfold read_full_raster_as at h
  cases hb : rasterband ds d i with
  | error e => rw [hb] at h; exact Except.noConfusion h
  | ok band => rw [hb] at h; exact read_band_as_ok_length band d buf h

/-- C1 witness: reading the full 2-by-2 window of the sample dataset yields
the concrete buffer `sampleBuf`, whose 4 samples match its declared
2-by-2 size. -/
theorem c1_witness :
    read_raster_as sampleDS sampleDiag 1 (0, 0) (2, 2) (2, 2) =
        .ok sampleBuf ∧
      sampleBuf.data.length = sampleBuf.size.1 * sampleBuf.size.2 :=
  ⟨rfl,
    c1_amended.2.1 Nat sampleDS sampleDiag 1 (0, 0) (2, 2) (2, 2) sampleBuf
      rfl⟩

/-- C7: each convenience method equals the spec-side composition "look up
the band with `rasterband`, then invoke the corresponding RasterBand
operation with the same arguments, errors passed through unmodified" — and
in particular, whenever the band lookup fails, each method returns that
lookup's `BandNotFound` error unmodified. -/
theorem c7_delegation :
    (∀ (α : Type) (ds : DatasetState α) (d : Diag) (i : Int),
      read_full_raster_as ds d i = read_full_raster_asSpec ds d i) ∧
    (∀ (α : Type) (ds : DatasetState α) (d : Diag) (i : Int)
      (w : Int × Int) (ws sz : Nat × Nat),
      read_raster_as ds d i w ws sz = read_raster_asSpec ds d i w ws sz) ∧
    (∀ (ds : DatasetState Nat) (d : Diag) (i : Int) (w : Int × Int)
      (ws sz : Nat × Nat),
      read_raster ds d i w ws sz = read_rasterSpec ds d i w ws sz) ∧
    (∀ (α : Type) [Inhabited α] (ds : DatasetState α) (d : Diag) (i : Int)
      (w : Int × Int) (ws : Nat × Nat) (buffer : Buffer α),
      write_raster ds d i w ws buffer = write_rasterSpec ds d i w ws buffer) ∧
    (∀ (α : Type) (ds : DatasetState α) (d : Diag) (i : Int)
      (w : Int × Int) (ws sz : Nat × Nat) (e : GdalError),
      rasterband ds d i = .error e →
        read_raster_as ds d i w ws sz = .error e) := by
  refine ⟨?_, ?_, ?_, ?_, ?_⟩
  · intro α ds d i
    unfold read_full_raster_as read_full_raster_asSpec
    cases rasterband ds d i <;> rfl
  · intro α ds d i w ws sz
    unfold read_raster_as read_raster_asSpec
    cases rasterband ds d i <;> rfl
  · intro ds d i w ws sz
    unfold read_raster read_raster_as read_rasterSpec
    cases rasterband ds d i <;> rfl
  · intro α _ ds d i w ws buffer
    unfold write_raster write_rasterSpec
    cases rasterband ds d i with
    | error e => rfl
    | ok band =>
      cases hw : band.write d w ws buffer <;>
        simp [Except.bind, Except.map, hw]
  · intro α ds d i w ws sz e h
    unfold read_raster_as
    rw [h]
    rfl

/-- C7 witness: on the sample dataset, looking up band 0 fails, and
`read_raster_as` at band 0 returns exactly that lookup error. -/
theorem c7_delegation_witness :
    read_raster_as sampleDS sampleDiag 0 (0, 0) (2, 2) (2, 2) =
      .error (lastNullPointerErr "GDALGetRasterBand" sampleDiag) :=
  c7_delegation.2.2.2.2 Nat sampleDS sampleDiag 0 (0, 0) (2, 2) (2, 2)
    (lastNullPointerErr "GDALGetRasterBand" sampleDiag) rfl

/-- C2: for every sample type, writable dataset, band index and valid
window, reading a buffer with `read_raster_as` at a window (output size
equal to the window size, so no resampling is involved) and immediately
writing that identical buffer back with `write_raster` at the same window
succeeds and leaves every band's pixel content identical to its state
before the pair of calls. -/
theorem c2_read_write_roundtrip {α : Type} [Inhabited α]
    (ds : DatasetState α) (d d' : Diag) (i : Int) (window : Int × Int)
    (wsz : Nat × Nat) (buf : Buffer α)
    (hread : read_raster_as ds d i window wsz wsz = .ok buf) :
    writePreserves ds (write_raster ds d' i window wsz buf) := by
  unfold read_raster_as at hread
  cases hb : rasterband ds d i with
  | error e => rw [hb] at hread; exact Except.noConfusion hread
  | ok band =>
    rw [hb] at hread
    replace hread : band.read_as d window wsz wsz = .ok buf := hread
    unfold rasterband at hb
    cases hg : GDALGetRasterBand ds (toCInt i) with
    | none => rw [hg] at hb; exact Except.noConfusion hb
    | some b =>
      rw [hg] at hb
      rw [Except.ok.injEq] at hb
      subst hb
      have hmem := hg
      unfold GDALGetRasterBand at hmem
      split at hmem
      · rw [List.get?_eq_some] at hmem
        obtain ⟨hn, hget⟩ := hmem
        unfold Grid.read_as at hread
        split at hread
        case isTrue hwok =>
          rw [Except.ok.injEq] at hread
          subst hread
          have hb' : rasterband ds d' i = .ok b := by
            unfold rasterband
            rw [hg]
          unfold write_raster
          rw [hb']
          simp only [Except.bind]
          unfold Grid.write
          rw [if_pos hwok]
          simp only [Except.map, writePreserves]
          constructor
          · simp [List.length_set]
          · intro j hj hj'
            simp only [List.get_eq_getElem]
            by_cases hjn : j = (toCInt i - 1).toNat
            · subst hjn
              rw [List.getElem_set_self]
              have hgetE : ds.bands[(toCInt i - 1).toNat] = b := by
                rw [List.get_eq_getElem] at hget
                exact hget
              rw [hgetE]
              refine ⟨rfl, rfl, ?_⟩
              intro x y hx hy
              show b.writePx window wsz _ x y = b.px x y
              unfold Grid.writePx
              split
              next hin =>
                obtain ⟨hx1, hx2, hy1, hy2⟩ := hin
                have hw1 : 0 < wsz.1 := by omega
                have hw2 : 0 < wsz.2 := by omega
                simp only
                rw [Nat.mul_div_cancel _ hw2, Nat.mul_div_cancel _ hw1]
                have hidx : (y - window.2.toNat) * wsz.1 +
                    (x - window.1.toNat) < wsz.1 * wsz.2 := by
                  have h5 : y - window.2.toNat < wsz.2 := by omega
                  have h6 : x - window.1.toNat < wsz.1 := by omega
                  calc (y - window.2.toNat) * wsz.1 + (x - window.1.toNat)
                      < (y - window.2.toNat) * wsz.1 + wsz.1 := by omega
                    _ = ((y - window.2.toNat) + 1) * wsz.1 := by ring
                    _ ≤ wsz.2 * wsz.1 :=
                        Nat.mul_le_mul_right _ (by omega)
                    _ = wsz.1 * wsz.2 := Nat.mul_comm _ _
                rw [List.getD_eq_getElem _ _ (by simpa using hidx)]
                rw [List.getElem_map, List.getElem_range]
                have e1 : ((y - window.2.toNat) * wsz.1 +
                    (x - window.1.toNat)) % wsz.1 = x - window.1.toNat := by
                  rw [Nat.mul_comm (y - window.2.toNat) wsz.1,
                    Nat.mul_add_mod, Nat.mod_eq_of_lt (by omega)]
                have e2 : ((y - window.2.toNat) * wsz.1 +
                    (x - window.1.toNat)) / wsz.1 = y - window.2.toNat := by
                  rw [Nat.mul_comm (y - window.2.toNat) wsz.1,
                    Nat.mul_add_div hw1, Nat.div_eq_of_lt (by omega)]
                  omega
                rw [e1, e2, Nat.mul_div_cancel _ hw1, Nat.mul_div_cancel _ hw2]
                have e3 : window.1.toNat + (x - window.1.toNat) = x := by omega
                have e4 : window.2.toNat + (y - window.2.toNat) = y := by omega
                rw [e3, e4]
              next => rfl
            · rw [List.getElem_set_of_ne (Ne.symm hjn)]
              exact ⟨rfl, rfl, fun x y _ _ => rfl⟩
        case isFalse => exact Except.noConfusion hread
      · exact Option.noConfusion hmem

/-- C2 witness: on the sample dataset, reading the full 2-by-2 window
yields `sampleBuf`, and writing it back at that window succeeds and leaves
the pixel content unchanged. -/
theorem c2_read_write_roundtrip_witness :
    read_raster_as sampleDS sampleDiag 1 (0, 0) (2, 2) (2, 2) =
        .ok sampleBuf ∧
      writePreserves sampleDS
        (write_raster sampleDS sampleDiag 1 (0, 0) (2, 2) sampleBuf) :=
  ⟨rfl,
    c2_read_write_roundtrip sampleDS sampleDiag sampleDiag 1 (0, 0) (2, 2)
      sampleBuf rfl⟩

end Gdal
